import Mathlib

/-!
Shallow embedding of the request-authentication core of this repository:
`verify_origin` and `authenticate` from `src/controllers/util.rs`, and
`AppMiddleware` from `src/middleware/app.rs`, together with theorems about
the behaviour the specification ascribes to them.
-/

namespace CratesIO

/-- A raw HTTP header value: its underlying content (`raw`, the text the debug
formatter shows) and whether `to_str()` succeeds on it (`decodable`). -/
structure HeaderValue where
  raw : String
  decodable : Bool
deriving DecidableEq, Repr

/-- `h.to_str().ok()`: the decoded text when decoding succeeds, `none` otherwise. -/
def HeaderValue.toStrOk (h : HeaderValue) : Option String :=
  if h.decodable then some h.raw else none

/-- `h.to_str().unwrap_or_default()`: the decoded text, or `""` on decode failure. -/
def HeaderValue.toStrOrEmpty (h : HeaderValue) : String :=
  if h.decodable then h.raw else ""

/-- `format!("{:?}", h)` on a header value: its raw content in double quotes. -/
def HeaderValue.debugFmt (h : HeaderValue) : String :=
  "\"" ++ h.raw ++ "\""

/-- `conduit::Host`: a named host or a socket address (already rendered to text,
matching the `a.to_string()` call in the source). -/
inductive Host where
  | name (a : String)
  | socket (a : String)
deriving DecidableEq, Repr

/-- The request data consumed by `verify_origin` and `authenticate`: the header
occurrences they read, the connection host info, and the request-scoped
trusted-identity slot (`extensions().find::<TrustedUserId>()`). -/
structure Request where
  forwardedHost : Option HeaderValue
  forwardedProto : Option HeaderValue
  originHeaders : List HeaderValue
  authorization : Option HeaderValue
  host : Host
  trustedUserId : Option Int
deriving DecidableEq, Repr

/-- Modelled from the spec: the error-chain machinery of `crate::util::errors`,
which is not under `src/`. Errors are causal chains: a root cause (storage
error, not-found, malformed token) optionally wrapped by an `Internal`
classification, optionally re-wrapped by `Forbidden`; `chained c e` wraps cause
`c` with outer error `e`. The distinguished revoked-token signal
(`InsecurelyGeneratedTokenRevoked`) is its own variant. -/
inductive AppError where
  | internal (msg : String)
  | forbidden
  | insecurelyGeneratedTokenRevoked
  | notFound
  | dbError (msg : String)
  | chained (cause : AppError) (error : AppError)
deriving DecidableEq, Repr

/-- Modelled from the spec: `e.is::<InsecurelyGeneratedTokenRevoked>()`, the
downcast test on the error value itself (a chained wrapper is its own type, so
the test sees only the outermost value). -/
def AppError.isRevokedSignal : AppError → Bool
  | .insecurelyGeneratedTokenRevoked => true
  | _ => false

/-- The outermost classification of an error chain: the `error` side of the
outermost wrapping, unfolded to its own outermost classification. -/
def AppError.outerClass : AppError → AppError
  | .chained _ e => e.outerClass
  | e => e

/-- `t` occurs as a node somewhere in the causal chain of `e`. -/
inductive AppError.InChain : AppError → AppError → Prop where
  | refl (e : AppError) : AppError.InChain e e
  | causeStep {c t : AppError} (er : AppError) :
      AppError.InChain c t → AppError.InChain (.chained c er) t
  | errStep (c : AppError) {er t : AppError} :
      AppError.InChain er t → AppError.InChain (.chained c er) t

/-- The authenticated principal: `AuthenticatedUser` from
`src/controllers/util.rs`, with `token_id` present iff the identity came from
the bearer-token path. -/
structure AuthenticatedUser where
  user_id : Int
  token_id : Option Int
deriving DecidableEq, Repr

/-- Modelled from the spec: the persisted `ApiToken` record returned by the
token-lookup collaborator. -/
structure ApiToken where
  id : Int
  user_id : Int
deriving DecidableEq, Repr

/-- Modelled from the spec: the external collaborators `authenticate` calls —
database-connection acquisition (`db_conn()`) and token lookup by the presented
token string (`ApiToken::find_by_api_token`). -/
structure Collaborators where
  db_conn : Except AppError Unit
  find_by_api_token : String → Except AppError ApiToken

/-- Observable steps of `authenticate` besides its return value: inspecting the
trusted-identity slot, acquiring a database connection, looking up a token, and
recording a diagnostic-metadata entry (`log_request::add_custom_metadata`). -/
inductive Effect where
  | inspectTrusted
  | acquireConn
  | lookupToken (token : String)
  | recordMeta (key : String) (value : Int)
deriving DecidableEq, Repr

/-- `verify_origin` from `src/controllers/util.rs`: compute the expected origin
from the forwarded headers when both are present (decode failure → empty
string), otherwise from the connection host with scheme `http`; then fail on
the first `Origin` occurrence whose text differs from the expected origin. -/
def verify_origin (req : Request) : Except AppError Unit :=
  let expected_origin :=
    match req.forwardedHost, req.forwardedProto with
    | some host, some proto => proto.toStrOrEmpty ++ "://" ++ host.toStrOrEmpty
    | _, _ =>
      match req.host with
      | .name a => "http://" ++ a
      | .socket a => "http://" ++ a
  match req.originHeaders.find? (fun h => h.toStrOrEmpty != expected_origin) with
  | some bad_origin =>
    .error (AppError.chained
      (.internal ("only same-origin requests can be authenticated. expected "
        ++ expected_origin ++ ", got " ++ bad_origin.debugFmt))
      .forbidden)
  | none => .ok ()

/-- `authenticate` from `src/controllers/util.rs`, returning the result
together with the ordered trace of observable effects. Control flow: origin
check, trusted-identity slot, then the `Authorization` header (undecodable
values fall out at `and_then(|h| h.to_str().ok())`), then connection
acquisition and token lookup, with the revoked-token signal propagated
unwrapped and every other lookup failure chained through
`internal("invalid token")` and `forbidden()`. -/
def authenticate (req : Request) (c : Collaborators) :
    Except AppError AuthenticatedUser × List Effect :=
  match verify_origin req with
  | .error e => (.error e, [])
  | .ok _ =>
    match req.trustedUserId with
    | some id =>
      (.ok { user_id := id, token_id := none },
       [.inspectTrusted, .recordMeta "uid" id])
    | none =>
      match req.authorization.bind HeaderValue.toStrOk with
      | some header_value =>
        match c.db_conn with
        | .error e => (.error e, [.inspectTrusted, .acquireConn])
        | .ok _ =>
          match c.find_by_api_token header_value with
          | .ok token =>
            let user : AuthenticatedUser :=
              { user_id := token.user_id, token_id := some token.id }
            (.ok user,
             [.inspectTrusted, .acquireConn, .lookupToken header_value,
              .recordMeta "uid" user.user_id,
              .recordMeta "tokenid" (user.token_id.getD 0)])
          | .error e =>
            (.error (if e.isRevokedSignal then e
                     else .chained (.chained e (.internal "invalid token")) .forbidden),
             [.inspectTrusted, .acquireConn, .lookupToken header_value])
      | none =>
        (.error (.chained (.internal "no cookie session or auth header found") .forbidden),
         [.inspectTrusted])

/-- The metadata entries recorded in an effect trace, in order. -/
def metadataOf (effs : List Effect) : List (String × Int) :=
  effs.filterMap fun e =>
    match e with
    | .recordMeta k v => some (k, v)
    | _ => none

/-- Request-scoped extension storage as `AppMiddleware` sees it: the slot that
may hold the reference-counted `App` handle (handles identified by a number). -/
structure MRequest where
  appSlot : Option Nat
deriving DecidableEq, Repr

/-- `AppMiddleware::before` from `src/middleware/app.rs`: insert a clone of the
shared handle into the extensions and return `Ok(())`. -/
def AppMiddleware.before (app : Nat) (req : MRequest) :
    MRequest × Except String Unit :=
  ({ appSlot := some app }, .ok ())

/-- `AppMiddleware::after` from `src/middleware/app.rs`: pop the handle and pass
the response result through; the `unwrap()` panic on an empty slot is modelled
as `none`. -/
def AppMiddleware.after {ρ : Type} (req : MRequest) (res : ρ) :
    Option (MRequest × ρ) :=
  match req.appSlot with
  | some _ => some ({ appSlot := none }, res)
  | none => none

/-- `pat` occurs as a contiguous substring of `s`. -/
def strContains (s pat : String) : Prop :=
  ∃ a b : String, s = a ++ pat ++ b

theorem strAppend_assoc : ∀ a b c : String, (a ++ b) ++ c = a ++ (b ++ c)
  | ⟨la⟩, ⟨lb⟩, ⟨lc⟩ => congrArg String.mk (List.append_assoc la lb lc)

/-- C7: a request carrying no `Origin` header occurrence passes `verify_origin`,
whatever the forwarded headers, connection host, and other headers are. -/
theorem C7_no_origin_header_passes (req : Request)
    (h : req.originHeaders = []) : verify_origin req = .ok () := by
  simp [verify_origin, h]

/-- Witness for C7 at a concrete request. -/
theorem C7_no_origin_header_passes_witness :
    verify_origin
      { forwardedHost := some { raw := "crates.io", decodable := true }
      , forwardedProto := none
      , originHeaders := []
      , authorization := none
      , host := .socket "127.0.0.1:8888"
      , trustedUserId := none } = .ok () :=
  C7_no_origin_header_passes _ rfl

/-- C10: `AppMiddleware::before` always returns `Ok(())` after inserting the
reference-counted singleton handle into request-scoped storage. -/
theorem C10_before_always_ok (app : Nat) (req : MRequest) :
    AppMiddleware.before app req = ({ appSlot := some app }, .ok ()) := rfl

/-- C9: `AppMiddleware::after` removes the singleton handle from request-scoped
storage and returns the given response result unchanged, and fails loudly
(modelled as `none`) when the handle is absent. -/
theorem C9_after_pops_and_passes_through (ρ : Type) (req : MRequest) (res : ρ) :
    ((∃ a, req.appSlot = some a) →
      AppMiddleware.after req res = some ({ appSlot := none }, res)) ∧
    (req.appSlot = none → AppMiddleware.after req res = none) := by
  constructor
  · rintro ⟨a, h⟩
    simp [AppMiddleware.after, h]
  · intro h
    simp [AppMiddleware.after, h]

/-- Witness for C9 at concrete requests, with and without the handle. -/
theorem C9_after_pops_and_passes_through_witness :
    AppMiddleware.after { appSlot := some 3 } (7 : Nat) =
      some ({ appSlot := none }, 7) ∧
    AppMiddleware.after { appSlot := none } (7 : Nat) = none :=
  ⟨(C9_after_pops_and_passes_through Nat { appSlot := some 3 } 7).1 ⟨3, rfl⟩,
   (C9_after_pops_and_passes_through Nat { appSlot := none } 7).2 rfl⟩

/-- C1: on the bearer-token path, a token lookup failing with the distinguished
revoked-token signal is returned exactly as-is — no `Internal` or `Forbidden`
classification is added to its chain. -/
theorem C1_revoked_signal_unwrapped (req : Request) (c : Collaborators)
    (s : String) (e : AppError)
    (hor : verify_origin req = .ok ())
    (htr : req.trustedUserId = none)
    (hau : req.authorization.bind HeaderValue.toStrOk = some s)
    (hdb : c.db_conn = .ok ())
    (hlk : c.find_by_api_token s = .error e)
    (hrv : e.isRevokedSignal = true) :
    (authenticate req c).1 = .error e := by
  simp [authenticate, hor, htr, hau, hdb, hlk, hrv]

/-- A request on the bearer-token path used by witnesses for C1. -/
def reqTokC1 : Request :=
  { forwardedHost := none
  , forwardedProto := none
  , originHeaders := []
  , authorization := some { raw := "sometoken", decodable := true }
  , host := .name "localhost"
  , trustedUserId := none }

/-- Collaborators whose token lookup fails with the revoked-token signal. -/
def collabRevokedC1 : Collaborators :=
  { db_conn := .ok ()
  , find_by_api_token := fun _ => .error .insecurelyGeneratedTokenRevoked }

/-- Witness for C1 at a concrete request and collaborators. -/
theorem C1_revoked_signal_unwrapped_witness :
    (authenticate reqTokC1 collabRevokedC1).1 =
      .error .insecurelyGeneratedTokenRevoked :=
  C1_revoked_signal_unwrapped reqTokC1 collabRevokedC1 "sometoken"
    .insecurelyGeneratedTokenRevoked rfl rfl rfl rfl rfl rfl

/-- C4: when origin verification passes and the request-scoped storage holds a
trusted identity `id`, `authenticate` returns `AuthenticatedUser` with
`user_id = id` and `token_id = none`, records exactly the metadata entry
`"uid" = id`, acquires no connection, performs no token lookup, and its outcome
is independent of the `Authorization` header and of the collaborators. -/
theorem C4_trusted_identity_path (req : Request) (c : Collaborators) (id : Int)
    (hor : verify_origin req = .ok ())
    (htr : req.trustedUserId = some id) :
    (authenticate req c).1 = .ok { user_id := id, token_id := none } ∧
    metadataOf (authenticate req c).2 = [("uid", id)] ∧
    Effect.acquireConn ∉ (authenticate req c).2 ∧
    (∀ t, Effect.lookupToken t ∉ (authenticate req c).2) ∧
    (∀ a c2, authenticate { req with authorization := a } c2 =
      authenticate req c) := by
  have hor2 : ∀ a (t : Option Int), verify_origin
      { forwardedHost := req.forwardedHost, forwardedProto := req.forwardedProto
      , originHeaders := req.originHeaders, authorization := a
      , host := req.host, trustedUserId := t } = verify_origin req :=
    fun _ _ => rfl
  refine ⟨?_, ?_, ?_, ?_, ?_⟩ <;>
    simp [authenticate, hor, hor2, htr, metadataOf]

/-- A request with a trusted identity used by the witness for C4. -/
def reqTrustedC4 : Request :=
  { forwardedHost := none
  , forwardedProto := none
  , originHeaders := []
  , authorization := some { raw := "ignored", decodable := true }
  , host := .name "localhost"
  , trustedUserId := some 42 }

/-- Collaborators that would fail if consulted, used by the witness for C4. -/
def collabFailingC4 : Collaborators :=
  { db_conn := .error (.dbError "unavailable")
  , find_by_api_token := fun _ => .error .notFound }

/-- Witness for C4 at a concrete request with trusted identity 42. -/
theorem C4_trusted_identity_path_witness :
    (authenticate reqTrustedC4 collabFailingC4).1 =
      .ok { user_id := 42, token_id := none } ∧
    metadataOf (authenticate reqTrustedC4 collabFailingC4).2 = [("uid", 42)] ∧
    authenticate { reqTrustedC4 with authorization := none }
        { db_conn := .ok (), find_by_api_token := fun _ => .error .notFound } =
      authenticate reqTrustedC4 collabFailingC4 :=
  have h := C4_trusted_identity_path reqTrustedC4 collabFailingC4 42 rfl rfl
  ⟨h.1, h.2.1, h.2.2.2.2 none _⟩

/-- C5: on the bearer-token path, a token lookup failing for any non-revoked
cause `e` yields an error whose outer classification is `Forbidden` and whose
chain contains `Internal("invalid token")` directly wrapping the root lookup
failure `e`. -/
theorem C5_nonrevoked_lookup_failure_forbidden (req : Request)
    (c : Collaborators) (s : String) (e : AppError)
    (hor : verify_origin req = .ok ())
    (htr : req.trustedUserId = none)
    (hau : req.authorization.bind HeaderValue.toStrOk = some s)
    (hdb : c.db_conn = .ok ())
    (hlk : c.find_by_api_token s = .error e)
    (hrv : e.isRevokedSignal = false) :
    (authenticate req c).1 =
      .error (.chained (.chained e (.internal "invalid token")) .forbidden) ∧
    AppError.outerClass
      (.chained (.chained e (.internal "invalid token")) .forbidden) =
      .forbidden ∧
    AppError.InChain
      (.chained (.chained e (.internal "invalid token")) .forbidden)
      (.chained e (.internal "invalid token")) ∧
    AppError.InChain
      (.chained (.chained e (.internal "invalid token")) .forbidden) e := by
  refine ⟨?_, rfl, .causeStep _ (.refl _), .causeStep _ (.causeStep _ (.refl _))⟩
  simp [authenticate, hor, htr, hau, hdb, hlk, hrv]

/-- Collaborators whose token lookup fails with a plain not-found cause. -/
def collabNotFoundC5 : Collaborators :=
  { db_conn := .ok ()
  , find_by_api_token := fun _ => .error .notFound }

/-- A request on the bearer-token path used by the witness for C5. -/
def reqTokC5 : Request :=
  { forwardedHost := none
  , forwardedProto := none
  , originHeaders := []
  , authorization := some { raw := "unknown-token", decodable := true }
  , host := .name "localhost"
  , trustedUserId := none }

/-- Witness for C5 at a concrete request whose lookup fails with not-found. -/
theorem C5_nonrevoked_lookup_failure_forbidden_witness :
    (authenticate reqTokC5 collabNotFoundC5).1 =
      .error (.chained (.chained .notFound (.internal "invalid token"))
        .forbidden) ∧
    AppError.outerClass
      (.chained (.chained .notFound (.internal "invalid token")) .forbidden) =
      .forbidden :=
  have h := C5_nonrevoked_lookup_failure_forbidden reqTokC5 collabNotFoundC5
    "unknown-token" .notFound rfl rfl rfl rfl rfl rfl
  ⟨h.1, h.2.1⟩

/-- C6: when `verify_origin` fails, `authenticate` returns that error, whose
outer classification is `Forbidden`, and performs no observable step at all —
no trusted-identity inspection, no connection acquisition, no token lookup, no
metadata recording. -/
theorem C6_origin_failure_aborts (req : Request) (c : Collaborators)
    (e : AppError) (hor : verify_origin req = .error e) :
    authenticate req c = (.error e, []) ∧ e.outerClass = .forbidden := by
  constructor
  · simp [authenticate, hor]
  · unfold verify_origin at hor
    cases hfind : req.originHeaders.find?
        (fun h => h.toStrOrEmpty !=
          (match req.forwardedHost, req.forwardedProto with
           | some host, some proto =>
             proto.toStrOrEmpty ++ "://" ++ host.toStrOrEmpty
           | _, _ =>
             match req.host with
             | .name a => "http://" ++ a
             | .socket a => "http://" ++ a)) with
    | none => simp [hfind] at hor
    | some bad =>
      simp only [hfind] at hor
      cases hor
      rfl

/-- A request with a mismatched `Origin` header used by the witness for C6. -/
def reqBadOriginC6 : Request :=
  { forwardedHost := none
  , forwardedProto := none
  , originHeaders := [{ raw := "http://evil", decodable := true }]
  , authorization := none
  , host := .name "localhost"
  , trustedUserId := some 1 }

/-- Collaborators used by the witness for C6; never reached. -/
def collabIdleC6 : Collaborators :=
  { db_conn := .ok ()
  , find_by_api_token := fun _ => .error .notFound }

/-- Witness for C6 at a concrete request whose `Origin` header mismatches. -/
theorem C6_origin_failure_aborts_witness :
    authenticate reqBadOriginC6 collabIdleC6 =
      (.error (.chained (.internal
        "only same-origin requests can be authenticated. expected http://localhost, got \"http://evil\"")
        .forbidden), []) ∧
    AppError.outerClass (.chained (.internal
      "only same-origin requests can be authenticated. expected http://localhost, got \"http://evil\"")
      .forbidden) = .forbidden :=
  C6_origin_failure_aborts reqBadOriginC6 collabIdleC6 _ rfl

/-- A request whose `Authorization` header value cannot be decoded as text,
used for C2. -/
def reqUndecodableC2 : Request :=
  { forwardedHost := none
  , forwardedProto := none
  , originHeaders := []
  , authorization := some { raw := "badbytes", decodable := false }
  , host := .name "localhost"
  , trustedUserId := none }

/-- Collaborators used for C2. -/
def collabNotFoundC2 : Collaborators :=
  { db_conn := .ok ()
  , find_by_api_token := fun _ => .error .notFound }

/-- Counterexample to C2 as stated: with an undecodable `Authorization` header
the code behaves exactly as if the header were absent — it fails with the
no-credentials error and never acquires a connection or looks up a token —
rather than proceeding to lookup with the token-lookup classification. -/
theorem C2_counterexample :
    authenticate reqUndecodableC2 collabNotFoundC2 =
      authenticate { reqUndecodableC2 with authorization := none }
        collabNotFoundC2 ∧
    authenticate reqUndecodableC2 collabNotFoundC2 =
      (.error (.chained (.internal "no cookie session or auth header found")
        .forbidden), [.inspectTrusted]) ∧
    Effect.acquireConn ∉ (authenticate reqUndecodableC2 collabNotFoundC2).2 ∧
    Effect.lookupToken "badbytes" ∉
      (authenticate reqUndecodableC2 collabNotFoundC2).2 := by
  refine ⟨rfl, rfl, ?_, ?_⟩ <;> decide

/-- C2 amended: a request with no trusted identity and an undecodable
`Authorization` header behaves exactly as if the header were absent. -/
theorem C2_undecodable_treated_as_absent (req : Request) (c : Collaborators)
    (hv : HeaderValue)
    (hau : req.authorization = some hv)
    (hdec : hv.decodable = false) :
    authenticate req c = authenticate { req with authorization := none } c := by
  have hor2 : verify_origin { req with authorization := none } =
      verify_origin req := rfl
  have hbind : req.authorization.bind HeaderValue.toStrOk = none := by
    rw [hau]
    simp [HeaderValue.toStrOk, hdec]
  unfold authenticate
  rw [hor2]
  cases verify_origin req with
  | error e => rfl
  | ok u =>
    cases htr : req.trustedUserId with
    | some id => simp [htr]
    | none => simp [htr, hbind]

/-- Witness for the amended C2 at a concrete undecodable header. -/
theorem C2_undecodable_treated_as_absent_witness :
    authenticate reqUndecodableC2 collabNotFoundC2 =
      authenticate { reqUndecodableC2 with authorization := none }
        collabNotFoundC2 :=
  C2_undecodable_treated_as_absent reqUndecodableC2 collabNotFoundC2
    { raw := "badbytes", decodable := false } rfl rfl

theorem find?_none_of_all {α : Type} (q : α → Bool) (l : List α)
    (hl : ∀ x ∈ l, q x = false) : l.find? q = none := by
  induction l with
  | nil => rfl
  | cons x xs ih =>
    have hx := hl x (List.mem_cons_self x xs)
    simp only [List.find?, hx]
    exact ih fun y hy => hl y (List.mem_cons_of_mem x hy)

theorem find?_first {α : Type} (q : α → Bool) :
    ∀ (pre : List α) (bad : α) (rest : List α),
    (∀ x ∈ pre, q x = false) → q bad = true →
    (pre ++ bad :: rest).find? q = some bad
  | [], bad, rest, _, hbad => by simp [List.find?, hbad]
  | x :: pre, bad, rest, hpre, hbad => by
    have hx : q x = false := hpre x (List.mem_cons_self x pre)
    simp only [List.cons_append, List.find?, hx]
    exact find?_first q pre bad rest
      (fun y hy => hpre y (List.mem_cons_of_mem x hy)) hbad

theorem strContains_raw_of_debugFmt (x : String) (hv : HeaderValue) :
    strContains (x ++ hv.debugFmt) hv.raw :=
  ⟨x ++ "\"", "\"", by
    rw [HeaderValue.debugFmt, ← strAppend_assoc x ("\"" ++ hv.raw) "\"",
      ← strAppend_assoc x "\"" hv.raw]⟩

/-- When both forwarded headers are present and decodable with values `h` and
`p`, `verify_origin` reduces to the first-offender search against the expected
origin `p ++ "://" ++ h`. -/
theorem verify_origin_forwarded (req : Request) (h p : String)
    (hh : req.forwardedHost = some { raw := h, decodable := true })
    (hp : req.forwardedProto = some { raw := p, decodable := true }) :
    verify_origin req =
      match req.originHeaders.find?
          (fun o => o.toStrOrEmpty != p ++ "://" ++ h) with
      | some bad =>
        .error (AppError.chained
          (.internal ("only same-origin requests can be authenticated. expected "
            ++ (p ++ "://" ++ h) ++ ", got " ++ bad.debugFmt))
          .forbidden)
      | none => .ok () := by
  unfold verify_origin
  rw [hh, hp]
  simp [HeaderValue.toStrOrEmpty]

/-- C3: with forwarded-host `h` and forwarded-proto `p`, `verify_origin`
succeeds when every `Origin` occurrence's text equals `p ++ "://" ++ h`, and
when the occurrences split as `pre ++ bad :: rest` with every text in `pre`
matching and `bad`'s text differing, it fails with a message embedding the
expected origin and the literal value of `bad` — the first differing
occurrence. -/
theorem C3_forwarded_origin_check (req : Request) (h p : String)
    (hh : req.forwardedHost = some { raw := h, decodable := true })
    (hp : req.forwardedProto = some { raw := p, decodable := true }) :
    ((∀ o ∈ req.originHeaders, o.toStrOrEmpty = p ++ "://" ++ h) →
      verify_origin req = .ok ()) ∧
    (∀ pre bad rest, req.originHeaders = pre ++ bad :: rest →
      (∀ o ∈ pre, o.toStrOrEmpty = p ++ "://" ++ h) →
      bad.toStrOrEmpty ≠ p ++ "://" ++ h →
      verify_origin req =
        .error (.chained
          (.internal ("only same-origin requests can be authenticated. expected "
            ++ (p ++ "://" ++ h) ++ ", got " ++ bad.debugFmt))
          .forbidden) ∧
      strContains ("only same-origin requests can be authenticated. expected "
          ++ (p ++ "://" ++ h) ++ ", got " ++ bad.debugFmt)
        (p ++ "://" ++ h) ∧
      strContains ("only same-origin requests can be authenticated. expected "
          ++ (p ++ "://" ++ h) ++ ", got " ++ bad.debugFmt)
        bad.raw) := by
  constructor
  · intro hall
    rw [verify_origin_forwarded req h p hh hp,
      find?_none_of_all _ _ (fun x hx => by simp [hall x hx])]
  · intro pre bad rest hsplit hpre hbad
    have hfind : req.originHeaders.find?
        (fun o => o.toStrOrEmpty != p ++ "://" ++ h) = some bad := by
      rw [hsplit]
      exact find?_first _ pre bad rest
        (fun x hx => by simp [hpre x hx]) (by simp [hbad])
    refine ⟨?_, ?_, ?_⟩
    · rw [verify_origin_forwarded req h p hh hp, hfind]
    · exact ⟨"only same-origin requests can be authenticated. expected ",
        ", got " ++ bad.debugFmt, by rw [strAppend_assoc]⟩
    · exact strContains_raw_of_debugFmt _ bad

/-- A request whose every `Origin` occurrence matches the forwarded origin,
used by the witness for C3. -/
def reqOriginGoodC3 : Request :=
  { forwardedHost := some { raw := "crates.io", decodable := true }
  , forwardedProto := some { raw := "https", decodable := true }
  , originHeaders := [{ raw := "https://crates.io", decodable := true }]
  , authorization := none
  , host := .name "localhost"
  , trustedUserId := none }

/-- A request with a mismatched `Origin` occurrence, used by the witness
for C3. -/
def reqOriginBadC3 : Request :=
  { forwardedHost := some { raw := "crates.io", decodable := true }
  , forwardedProto := some { raw := "https", decodable := true }
  , originHeaders := [{ raw := "https://evil.example", decodable := true }]
  , authorization := none
  , host := .name "localhost"
  , trustedUserId := none }

/-- Witness for C3 at concrete matching and mismatching requests. -/
theorem C3_forwarded_origin_check_witness :
    verify_origin reqOriginGoodC3 = .ok () ∧
    verify_origin reqOriginBadC3 =
      .error (.chained
        (.internal ("only same-origin requests can be authenticated. expected "
          ++ ("https" ++ "://" ++ "crates.io") ++ ", got "
          ++ HeaderValue.debugFmt { raw := "https://evil.example", decodable := true }))
        .forbidden) ∧
    strContains ("only same-origin requests can be authenticated. expected "
        ++ ("https" ++ "://" ++ "crates.io") ++ ", got "
        ++ HeaderValue.debugFmt { raw := "https://evil.example", decodable := true })
      ("https" ++ "://" ++ "crates.io") ∧
    strContains ("only same-origin requests can be authenticated. expected "
        ++ ("https" ++ "://" ++ "crates.io") ++ ", got "
        ++ HeaderValue.debugFmt { raw := "https://evil.example", decodable := true })
      "https://evil.example" := by
  have h1 := (C3_forwarded_origin_check reqOriginGoodC3 "crates.io" "https"
    rfl rfl).1 (by decide)
  have h2 := (C3_forwarded_origin_check reqOriginBadC3 "crates.io" "https"
    rfl rfl).2 [] { raw := "https://evil.example", decodable := true } []
    rfl (by decide) (by decide)
  exact ⟨h1, h2.1, h2.2.1, h2.2.2⟩

/-- A request of connection host `a` whose `Origin` matches it, used for C8. -/
def reqHostA : Request :=
  { forwardedHost := none
  , forwardedProto := none
  , originHeaders := [{ raw := "http://a", decodable := true }]
  , authorization := none
  , host := .name "a"
  , trustedUserId := some 1 }

/-- The same headers and trusted identity as `reqHostA`, but connection host
`b`, used for C8. -/
def reqHostB : Request :=
  { forwardedHost := none
  , forwardedProto := none
  , originHeaders := [{ raw := "http://a", decodable := true }]
  , authorization := none
  , host := .name "b"
  , trustedUserId := some 1 }

/-- Collaborators used for C8. -/
def collabC8 : Collaborators :=
  { db_conn := .ok ()
  , find_by_api_token := fun _ => .error .notFound }

/-- A separate definition with the same field values as `collabC8`. -/
def collabC8same : Collaborators :=
  { db_conn := .ok ()
  , find_by_api_token := fun _ => Except.error .notFound }

/-- Counterexample to C8 as stated: two requests with identical headers,
identical trusted-identity content and identical collaborators — differing
only in connection host info, which the claim's equivalence does not fix —
produce a success on one run and a `Forbidden`-classified error on the other. -/
theorem C8_counterexample :
    reqHostA.forwardedHost = reqHostB.forwardedHost ∧
    reqHostA.forwardedProto = reqHostB.forwardedProto ∧
    reqHostA.originHeaders = reqHostB.originHeaders ∧
    reqHostA.authorization = reqHostB.authorization ∧
    reqHostA.trustedUserId = reqHostB.trustedUserId ∧
    (authenticate reqHostA collabC8).1 =
      .ok { user_id := 1, token_id := none } ∧
    (authenticate reqHostB collabC8).1 =
      .error (.chained
        (.internal "only same-origin requests can be authenticated. expected http://b, got \"http://a\"")
        .forbidden) := by
  refine ⟨rfl, rfl, rfl, rfl, rfl, ?_, ?_⟩ <;> rfl

/-- C8 amended: two authentication runs over requests that agree on all
headers, trusted-identity content AND connection host info, with collaborators
that agree on connection acquisition and on token lookup for every token
string, produce equal results (and equal effect traces). -/
theorem C8_equal_inputs_equal_outcomes (r1 r2 : Request)
    (c1 c2 : Collaborators)
    (hfh : r1.forwardedHost = r2.forwardedHost)
    (hfp : r1.forwardedProto = r2.forwardedProto)
    (hoh : r1.originHeaders = r2.originHeaders)
    (hau : r1.authorization = r2.authorization)
    (hho : r1.host = r2.host)
    (htr : r1.trustedUserId = r2.trustedUserId)
    (hdb : c1.db_conn = c2.db_conn)
    (hlk : ∀ s, c1.find_by_api_token s = c2.find_by_api_token s) :
    authenticate r1 c1 = authenticate r2 c2 := by
  have hr : r1 = r2 := by
    cases r1
    cases r2
    simp_all
  have hc : c1 = c2 := by
    obtain ⟨db1, f1⟩ := c1
    obtain ⟨db2, f2⟩ := c2
    have h1 : db1 = db2 := hdb
    have h2 : f1 = f2 := funext hlk
    rw [h1, h2]
  rw [hr, hc]

/-- Witness for the amended C8 at two definitionally distinct but equal
concrete inputs. -/
theorem C8_equal_inputs_equal_outcomes_witness :
    authenticate reqHostA collabC8 = authenticate reqHostA collabC8same :=
  C8_equal_inputs_equal_outcomes reqHostA reqHostA collabC8 collabC8same
    rfl rfl rfl rfl rfl rfl rfl (fun _ => rfl)

end CratesIO
